import Mathlib

/-!
Shallow embedding of the network-simulation engine of this repository
(src/core/device.py, src/core/simulator.py, src/core/topology_generator.py),
together with theorems settling the frozen claims about it.

Modelling conventions:
* Python `Dict[str, T]` values keyed by unique names are embedded as
  association lists (`List (String × T)`) or plain lists in insertion order.
* Machine floats used only as clock readings and durations are embedded
  as `Int` clock ticks: the engine only subtracts and compares times, so
  any concrete instant can be rescaled to integer ticks (the fixtures
  below use one tick = 0.5 s where the claims name half-second instants).
* IPv4 addresses and masks are embedded as their 32-bit numeric values
  (`Nat`); the `ipaddress` library calls are embedded by their arithmetic
  meaning, including the `ValueError → continue` path for invalid masks.
* Python truthiness tests on `Optional` values (`if duration:`, `if limit:`)
  are embedded exactly: `None` and zero (or the empty string) are falsy.
-/

namespace NetSim

/-! ## Data model (src/core/device.py) -/

inductive DeviceType where
  | router
  | switch
  | endpoint
deriving DecidableEq

inductive InterfaceState where
  | up
  | down
  | admin_down
deriving DecidableEq

structure Interface where
  name : String
  ip_address : Nat
  subnet_mask : Nat
  bandwidth : Nat
  mtu : Nat
  state : InterfaceState
  vlan : Option Nat
  description : String
deriving DecidableEq

/-- The per-device statistics dict (`packets_sent`, `packets_received`,
`errors`, `uptime`). -/
structure DeviceStatistics where
  packets_sent : Nat
  packets_received : Nat
  errors : Nat
  uptime : Int
deriving DecidableEq

/-- `NetworkDevice` state.  `interfaces` embeds the name-keyed dict in
insertion order (names are unique, the dict keys).  `running` is the loop
flag set in `__init__`; `alive` models `threading.Thread.is_alive()`,
false until the orchestrator calls `start()`. -/
structure NetworkDevice where
  hostname : String
  device_type : DeviceType
  interfaces : List Interface
  neighbors : List String
  routing_table : List (String × String)
  arp_table : List (String × String)
  statistics : DeviceStatistics
  running : Bool
  alive : Bool
deriving DecidableEq

/-! ## IPv4 arithmetic (the `ipaddress` library calls made by the device) -/

/-- The 32-bit netmask whose prefix length is `p`. -/
def netmaskOf (p : Nat) : Nat := 2 ^ 32 - 2 ^ (32 - p)

/-- The 32-bit hostmask whose prefix length is `p`. -/
def hostmaskOf (p : Nat) : Nat := 2 ^ (32 - p) - 1

/-- Prefix length of a mask value, as `IPv4Network` accepts it: a proper
netmask, or failing that a hostmask; anything else raises `ValueError`
(embedded as `none`). -/
def maskPrefixLen (m : Nat) : Option Nat :=
  match (List.range 33).find? (fun p => m == netmaskOf p) with
  | some p => some p
  | none => (List.range 33).find? (fun p => m == hostmaskOf p)

/-- Network address of `IPv4Network(ip/p, strict=False)`: host bits cleared. -/
def networkAddr (ip p : Nat) : Nat := ip / 2 ^ (32 - p) * 2 ^ (32 - p)

/-- Broadcast address of the same network: host bits set. -/
def broadcastAddr (ip p : Nat) : Nat := networkAddr ip p + (2 ^ (32 - p) - 1)

/-- `IPv4Network(target).subnet_of(IPv4Network(ip/p, strict=False))` for a
singleton (`/32`) target network: the target lies between the network and
broadcast addresses. -/
def singleton_subnet_of (t ip p : Nat) : Bool :=
  decide (networkAddr ip p ≤ t) && decide (t ≤ broadcastAddr ip p)

/-- The body of the `try` block in `_can_reach_ip` for one interface:
parse the interface's address/mask (a `ValueError` — invalid mask —
skips the interface) and test subnet containment of the target. -/
def mask_reach (t ip m : Nat) : Bool :=
  match maskPrefixLen m with
  | some p => singleton_subnet_of t ip p
  | none => false

/-! ## Device operations (src/core/device.py) -/

/-- `NetworkDevice._can_reach_ip`. -/
def can_reach_ip (d : NetworkDevice) (target_ip : Nat) : Bool :=
  d.interfaces.any fun intf =>
    intf.state == InterfaceState.up && mask_reach target_ip intf.ip_address intf.subnet_mask

/-- `NetworkDevice.set_interface_state`: no-op when the name is not a key
of the interfaces dict, otherwise mutate that interface's state.  (The
map touches exactly the dict entry: interface names are unique keys.) -/
def set_interface_state (d : NetworkDevice) (interface_name : String) (st : InterfaceState) :
    NetworkDevice :=
  if d.interfaces.any (fun i => i.name == interface_name) then
    { d with interfaces := d.interfaces.map fun i =>
        if i.name == interface_name then { i with state := st } else i }
  else d

/-- `NetworkDevice.add_neighbor`: append when absent. -/
def add_neighbor (d : NetworkDevice) (neighbor_hostname : String) : NetworkDevice :=
  if neighbor_hostname ∈ d.neighbors then d
  else { d with neighbors := d.neighbors ++ [neighbor_hostname] }

/-- `NetworkDevice.remove_neighbor`: remove the occurrence when present. -/
def remove_neighbor (d : NetworkDevice) (neighbor_hostname : String) : NetworkDevice :=
  { d with neighbors := d.neighbors.erase neighbor_hostname }

/-- Incoming messages, by the `type` key dispatched on in
`process_message`; `other` covers every unrecognized `type` value. -/
inductive Message where
  | arp_request (target_ip : Nat) (source_mac : String)
  | ospf_hello (source : String) (neighbor_list : List String)
  | routing_update (route : Option (String × String))
  | ping (target_ip source_ip ttl : Nat)
  | other (msg_type : String)
deriving DecidableEq

/-- The ARP reply value built by `_handle_arp_request` (synthesized but
never delivered — the caller discards the return value). -/
structure ArpReply where
  target_mac : String
  source_ip : Nat
  source_mac : String
deriving DecidableEq

/-- `NetworkDevice._handle_arp_request`: reply from the first interface
whose address equals the target (no interface-state check), else fall
through to the trace-only forward (no reply value). -/
def handle_arp_request (d : NetworkDevice) (target_ip : Nat) (source_mac : String) :
    Option ArpReply :=
  (d.interfaces.find? (fun intf => intf.ip_address == target_ip)).map fun intf =>
    { target_mac := source_mac
      source_ip := target_ip
      source_mac := "MAC_" ++ d.hostname ++ "_" ++ intf.name }

/-- Python dict assignment `m[k] = v`: overwrite the existing key or
append a new entry. -/
def dictInsert (m : List (String × String)) (k v : String) : List (String × String) :=
  if m.any (fun kv => kv.1 == k) then
    m.map fun kv => if kv.1 == k then (k, v) else kv
  else m ++ [(k, v)]

/-- `NetworkDevice._handle_routing_update`: routers merge the route into
the routing table; `route` is falsy (`None`/empty) ⇒ no change. -/
def handle_routing_update (d : NetworkDevice) (route : Option (String × String)) :
    NetworkDevice :=
  if d.device_type = DeviceType.router then
    match route with
    | some r => { d with routing_table := dictInsert d.routing_table r.1 r.2 }
    | none => d
  else d

/-- `NetworkDevice.process_message`: bump `packets_received`, then
dispatch on the message type.  The ARP/OSPF/ping handlers only build
reply values and log, so their state effect is nil; an unrecognized type
is logged as a warning and dropped. -/
def process_message (d : NetworkDevice) (msg : Message) : NetworkDevice :=
  let d := { d with statistics :=
    { d.statistics with packets_received := d.statistics.packets_received + 1 } }
  match msg with
  | Message.arp_request _ _ => d
  | Message.ospf_hello _ _ => d
  | Message.routing_update route => handle_routing_update d route
  | Message.ping _ _ _ => d
  | Message.other _ => d

/-! ## Topology input (src/core/topology_generator.py, src/core/config_parser.py) -/

/-- `ParsedInterface` from the config-parsing layer (addresses already as
32-bit values, as in the IPv4 modelling above). -/
structure ParsedInterface where
  name : String
  ip_address : Nat
  subnet_mask : Nat
  bandwidth : Nat
  mtu : Nat
  vlan : Option Nat
  description : String
  shutdown : Bool
  encapsulation : Option String
deriving DecidableEq

/-- `ParsedConfig`, restricted to the fields the simulation engine reads
(`interfaces`, `routing_protocols`, `vlans`, `default_gateway`; the
remaining parsed fields are never consumed by the simulator). -/
structure ParsedConfig where
  hostname : String
  interfaces : List ParsedInterface
  routing_protocols : List String
  vlans : List Nat
  default_gateway : Option String
deriving DecidableEq

structure NetworkLink where
  source_device : String
  source_interface : String
  target_device : String
  target_interface : String
  bandwidth : Nat
  latency : Rat
  reliability : Rat
  link_type : String
deriving DecidableEq

/-- `NetworkTopology`: the device dict, the link list and the `nx.Graph`
(embedded as its node list and undirected edge list; `subnets`, `vlans`
and `routing_domains` are never consumed by the simulator). -/
structure NetworkTopology where
  devices : List (String × ParsedConfig)
  links : List NetworkLink
  graphNodes : List String
  graphEdges : List (String × String)
deriving DecidableEq

/-- `nx.Graph.neighbors`: endpoints of the undirected edges incident to
`h`. -/
def graphNeighbors (edges : List (String × String)) (h : String) : List String :=
  edges.filterMap fun e =>
    if e.1 == h then some e.2 else if e.2 == h then some e.1 else none

/-- `TopologyGenerator.get_device_neighbors`, over the generator's
`topology` field, which is `None` until that generator instance runs
`generate_topology`. -/
def get_device_neighbors (gen_topology : Option NetworkTopology) (device : String) :
    List String :=
  match gen_topology with
  | none => []
  | some t => if device ∈ t.graphNodes then graphNeighbors t.graphEdges device else []

/-! ## Simulator (src/core/simulator.py) -/

structure FaultInjection where
  fault_type : String
  target_device : String
  target_interface : Option String
  parameters : List (String × String)
  duration : Option Int
  start_time : Option Int
deriving DecidableEq

/-- `SimulationEvent` (the open `data` payload is opaque to every claim
and omitted). -/
structure SimulationEvent where
  timestamp : Int
  event_type : String
  source_device : String
  target_device : Option String
  description : String
deriving DecidableEq

structure SimStatistics where
  total_packets : Nat
  total_errors : Nat
  devices_online : Nat
  devices_offline : Nat
  links_active : Nat
  links_failed : Nat
deriving DecidableEq

/-- `NetworkSimulator` state.  `topology_generator` is the `.topology`
field of the `TopologyGenerator()` instance constructed fresh in
`__init__` — it starts as `None` and nothing in the simulator ever runs
`generate_topology` on it. -/
structure NetworkSimulator where
  topology : NetworkTopology
  topology_generator : Option NetworkTopology
  devices : List (String × NetworkDevice)
  simulation_running : Bool
  simulation_paused : Bool
  simulation_start_time : Option Int
  simulation_time : Int
  events : List SimulationEvent
  event_queue : List SimulationEvent
  active_faults : List FaultInjection
  fault_history : List FaultInjection
  statistics : SimStatistics
deriving DecidableEq

/-- Python truthiness of an `Optional[float]`: `None` and `0.0` are falsy. -/
def pyTruthyTime (x : Option Int) : Bool :=
  match x with
  | none => false
  | some v => decide (v ≠ 0)

def containsDevice (s : NetworkSimulator) (hostname : String) : Bool :=
  s.devices.any fun kv => kv.1 == hostname

def lookupDevice (s : NetworkSimulator) (hostname : String) : Option NetworkDevice :=
  (s.devices.find? (fun kv => kv.1 == hostname)).map Prod.snd

/-- Mutate the entry of the device table at key `hostname` (a Python dict
lookup plus in-place mutation of the device object). -/
def updateDevice (s : NetworkSimulator) (hostname : String)
    (f : NetworkDevice → NetworkDevice) : NetworkSimulator :=
  { s with devices := s.devices.map fun kv =>
      if kv.1 == hostname then (kv.1, f kv.2) else kv }

/-- `NetworkSimulator._determine_device_type` (Python truthiness on the
lists, the optional gateway string and the optional VLAN ids). -/
def determine_device_type (config : ParsedConfig) : DeviceType :=
  if !config.routing_protocols.isEmpty
      || (match config.default_gateway with
          | some g => g ≠ ""
          | none => false) then
    DeviceType.router
  else if !config.vlans.isEmpty
      || config.interfaces.any (fun i =>
          match i.vlan with
          | some v => v ≠ 0
          | none => false) then
    DeviceType.switch
  else
    DeviceType.endpoint

/-- `NetworkDevice.__init__` + `_initialize_interfaces`, fed through
`_convert_config_for_device`: every interface starts `Up`. -/
def mk_network_device (hostname : String) (dt : DeviceType)
    (intfs : List ParsedInterface) : NetworkDevice :=
  { hostname := hostname
    device_type := dt
    interfaces := intfs.map fun pi =>
      { name := pi.name
        ip_address := pi.ip_address
        subnet_mask := pi.subnet_mask
        bandwidth := pi.bandwidth
        mtu := pi.mtu
        state := InterfaceState.up
        vlan := pi.vlan
        description := pi.description }
    neighbors := []
    routing_table := []
    arp_table := []
    statistics := { packets_sent := 0, packets_received := 0, errors := 0, uptime := 0 }
    running := true
    alive := false }

/-- `NetworkSimulator._initialize_devices`: build each device and seed
its neighbor set from `self.topology_generator.get_device_neighbors` —
the generator instance owned by the simulator, whose topology is
`gen_topology`. -/
def initialize_devices (topo : NetworkTopology) (gen_topology : Option NetworkTopology) :
    List (String × NetworkDevice) :=
  topo.devices.map fun kv =>
    let device := mk_network_device kv.1 (determine_device_type kv.2) kv.2.interfaces
    (kv.1, (get_device_neighbors gen_topology kv.1).foldl add_neighbor device)

/-- `NetworkSimulator.__init__`: note `topology_generator := none` — the
freshly constructed `TopologyGenerator()` has `self.topology = None`. -/
def NetworkSimulator.init (topology : NetworkTopology) : NetworkSimulator :=
  { topology := topology
    topology_generator := none
    devices := initialize_devices topology none
    simulation_running := false
    simulation_paused := false
    simulation_start_time := none
    simulation_time := 0
    events := []
    event_queue := []
    active_faults := []
    fault_history := []
    statistics :=
      { total_packets := 0, total_errors := 0, devices_online := 0
        devices_offline := 0, links_active := 0, links_failed := 0 } }

/-- `NetworkSimulator.start_simulation` at clock reading `now`: flip the
flags, start every device thread (making it alive), and launch the three
background loops (their per-tick work is embedded separately). -/
def start_simulation (s : NetworkSimulator) (now : Int) : NetworkSimulator :=
  if s.simulation_running then s
  else
    { s with simulation_running := true
             simulation_paused := false
             simulation_start_time := some now
             devices := s.devices.map fun kv => (kv.1, { kv.2 with alive := true }) }

/-- `NetworkSimulator._record_event`: build the event (timestamped with
the current clock) and enqueue it for the event-dispatch loop. -/
def record_event (s : NetworkSimulator) (now : Int) (event_type source_device : String)
    (target_device : Option String) (description : String) : NetworkSimulator :=
  { s with event_queue := s.event_queue ++
      [{ timestamp := now, event_type := event_type, source_device := source_device
         target_device := target_device, description := description }] }

/-- The `FaultInjection` record built inside `inject_fault`:
`start_time = time.time() if duration else None` — Python truthiness, so
a `None` **or zero** duration leaves the start time unset. -/
def mk_fault (now : Int) (fault_type target_device : String)
    (target_interface : Option String) (parameters : List (String × String))
    (duration : Option Int) : FaultInjection :=
  { fault_type := fault_type
    target_device := target_device
    target_interface := target_interface
    parameters := parameters
    duration := duration
    start_time := if pyTruthyTime duration then some now else none }

/-- One step of the `link_failure` apply loop: drop `nb` from the target
device, and symmetrically drop the target from `nb` when `nb` is a known
device. -/
def link_fail_step (target : String) (s : NetworkSimulator) (nb : String) :
    NetworkSimulator :=
  let s1 := updateDevice s target fun d => remove_neighbor d nb
  if containsDevice s1 nb then updateDevice s1 nb fun d => remove_neighbor d target
  else s1

/-- One step of the `link_failure` revert loop: re-add `nb` to the target
device and symmetrically re-add the target to `nb`. -/
def link_recover_step (target : String) (s : NetworkSimulator) (nb : String) :
    NetworkSimulator :=
  let s1 := updateDevice s target fun d => add_neighbor d nb
  if containsDevice s1 nb then updateDevice s1 nb fun d => add_neighbor d target
  else s1

/-- `neighbors = device.neighbors.copy()` for the fault's target device
(read once, before the removal loop mutates it). -/
def neighborsSnapshot (s : NetworkSimulator) (hostname : String) : List String :=
  ((s.devices.find? (fun kv => kv.1 == hostname)).map fun kv => kv.2.neighbors).getD []

/-- `NetworkSimulator._apply_fault`.  `high_cpu`, `memory_leak` and
`packet_loss` all delegate to `device.inject_fault('high_cpu')`, which
only logs; unknown types only log — neither changes any state. -/
def apply_fault (s : NetworkSimulator) (fault : FaultInjection) : NetworkSimulator :=
  if fault.fault_type == "interface_down" then
    match fault.target_interface with
    | some n =>
        updateDevice s fault.target_device fun d => set_interface_state d n InterfaceState.down
    | none =>
        updateDevice s fault.target_device fun d =>
          (d.interfaces.map Interface.name).foldl
            (fun e n => set_interface_state e n InterfaceState.down) d
  else if fault.fault_type == "link_failure" then
    (neighborsSnapshot s fault.target_device).foldl (link_fail_step fault.target_device) s
  else
    s

/-- `NetworkSimulator._remove_fault`.  The `link_failure` branch restores
from `self.topology_generator.get_device_neighbors` — the simulator's own
generator instance. -/
def remove_fault (s : NetworkSimulator) (fault : FaultInjection) : NetworkSimulator :=
  if fault.fault_type == "interface_down" then
    match fault.target_interface with
    | some n =>
        updateDevice s fault.target_device fun d => set_interface_state d n InterfaceState.up
    | none =>
        updateDevice s fault.target_device fun d =>
          (d.interfaces.map Interface.name).foldl
            (fun e n => set_interface_state e n InterfaceState.up) d
  else if fault.fault_type == "link_failure" then
    (get_device_neighbors s.topology_generator fault.target_device).foldl
      (link_recover_step fault.target_device) s
  else
    s

inductive InjectResult where
  | ok
  | notFound
deriving DecidableEq

/-- `NetworkSimulator.inject_fault` at clock reading `now`: an unknown
target logs an error and returns with no effect; otherwise the fault is
appended to the active list and the history, applied, and a
`fault_injected` event is recorded. -/
def inject_fault (s : NetworkSimulator) (now : Int) (fault_type target_device : String)
    (target_interface : Option String) (parameters : List (String × String))
    (duration : Option Int) : InjectResult × NetworkSimulator :=
  if containsDevice s target_device then
    let fault := mk_fault now fault_type target_device target_interface parameters duration
    let s1 := { s with active_faults := s.active_faults ++ [fault]
                       fault_history := s.fault_history ++ [fault] }
    let s2 := apply_fault s1 fault
    let s3 := record_event s2 now "fault_injected" target_device none
      ("Fault " ++ fault_type ++ " injected")
    (InjectResult.ok, s3)
  else
    (InjectResult.notFound, s)

/-- The expiry test in `_process_faults`:
`if fault.duration and fault.start_time:` (both truthy — `None` and zero
are falsy) followed by `current_time - fault.start_time >= fault.duration`. -/
def fault_expired (now : Int) (fault : FaultInjection) : Bool :=
  match fault.duration, fault.start_time with
  | some d, some t0 => decide (d ≠ 0) && decide (t0 ≠ 0) && decide (now - t0 ≥ d)
  | _, _ => false

/-- One iteration of the fault-expiry loop (`_process_faults` runs one
such scan every second): revert each expired fault in list order, then
drop the expired faults from the active list. -/
def process_faults_tick (s : NetworkSimulator) (now : Int) : NetworkSimulator :=
  let expired := s.active_faults.filter (fault_expired now)
  let s1 := expired.foldl remove_fault s
  { s1 with active_faults := s1.active_faults.filter fun f => !(fault_expired now f) }

/-! ## Status and event queries (src/core/simulator.py) -/

/-- The per-device entry of `get_network_status`: `online` is
`device.is_alive()`. -/
structure DeviceSummary where
  online : Bool
  neighbors : List String
  interfaces : Nat
deriving DecidableEq

structure NetworkStatus where
  simulation_running : Bool
  simulation_paused : Bool
  simulation_time : Int
  total_devices : Nat
  active_faults : Nat
  statistics : SimStatistics
  devices : List (String × DeviceSummary)
deriving DecidableEq

/-- `NetworkSimulator.get_network_status`. -/
def get_network_status (s : NetworkSimulator) : NetworkStatus :=
  { simulation_running := s.simulation_running
    simulation_paused := s.simulation_paused
    simulation_time := s.simulation_time
    total_devices := s.devices.length
    active_faults := s.active_faults.length
    statistics := s.statistics
    devices := s.devices.map fun kv =>
      (kv.1, { online := kv.2.alive
               neighbors := kv.2.neighbors
               interfaces := kv.2.interfaces.length }) }

/-- Python list slice `l[start:]` (negative start counts from the end,
clamped at 0). -/
def pySliceFrom {α : Type} (start : Int) (l : List α) : List α :=
  if start < 0 then l.drop (Int.toNat ((l.length : Int) + start))
  else l.drop start.toNat

/-- The filter stage of `get_simulation_events`: `if event_type:` skips
the filter for `None` and for the empty string. -/
def filteredEvents (s : NetworkSimulator) (event_type : Option String) :
    List SimulationEvent :=
  match event_type with
  | some t => if t ≠ "" then s.events.filter (fun e => e.event_type == t) else s.events
  | none => s.events

/-- `NetworkSimulator.get_simulation_events`: filter, then
`if limit: events = events[-limit:]` — a `None` **or zero** limit skips
the truncation. -/
def get_simulation_events (s : NetworkSimulator) (event_type : Option String)
    (limit : Option Int) : List SimulationEvent :=
  match limit with
  | some l =>
      if l ≠ 0 then pySliceFrom (-l) (filteredEvents s event_type)
      else filteredEvents s event_type
  | none => filteredEvents s event_type

/-! ## Concrete fixtures used by the per-claim evaluations

IPv4 values: 192.168.1.1 = 3232235777, 192.168.1.2 = 3232235778,
192.168.1.3 = 3232235779; 255.255.255.0 = 4294967040. -/

def plainIntf (nm : String) (ip mask : Nat) : ParsedInterface :=
  { name := nm, ip_address := ip, subnet_mask := mask, bandwidth := 100, mtu := 1500
    vlan := none, description := "", shutdown := false, encapsulation := none }

def plainConfig (h : String) (intfs : List ParsedInterface) : ParsedConfig :=
  { hostname := h, interfaces := intfs, routing_protocols := [], vlans := []
    default_gateway := none }

def plainLink (a ai b bi : String) : NetworkLink :=
  { source_device := a, source_interface := ai, target_device := b, target_interface := bi
    bandwidth := 100, latency := 1, reliability := 9/10, link_type := "ethernet" }

/-- C1 failing input: two devices joined by one link (so each has exactly
one neighbor in the input topology's adjacency). -/
def topoC1 : NetworkTopology :=
  { devices := [("A", plainConfig "A" [plainIntf "eth0" 3232235777 4294967040]),
                ("B", plainConfig "B" [plainIntf "eth0" 3232235778 4294967040])]
    links := [plainLink "A" "eth0" "B" "eth0"]
    graphNodes := ["A", "B"]
    graphEdges := [("A", "B")] }

def simC1 : NetworkSimulator := start_simulation (NetworkSimulator.init topoC1) 50

/-- C2 failing input: the three-device triangle of the claim's scenario. -/
def topoC2 : NetworkTopology :=
  { devices := [("A", plainConfig "A" [plainIntf "eth0" 3232235777 4294967040]),
                ("B", plainConfig "B" [plainIntf "eth0" 3232235778 4294967040]),
                ("C", plainConfig "C" [plainIntf "eth0" 3232235779 4294967040])]
    links := [plainLink "A" "eth0" "B" "eth0", plainLink "A" "eth0" "C" "eth0",
              plainLink "B" "eth0" "C" "eth0"]
    graphNodes := ["A", "B", "C"]
    graphEdges := [("A", "B"), ("A", "C"), ("B", "C")] }

/-- The triangle simulator with the adjacency the claim's scenario
presupposes, seeded through the devices' public `add_neighbor` operation
(the constructor itself fails to seed it — shown in the C2 theorem). -/
def simC2seeded : NetworkSimulator :=
  updateDevice
    (updateDevice
      (updateDevice (NetworkSimulator.init topoC2)
        "A" fun d => add_neighbor (add_neighbor d "B") "C")
      "B" fun d => add_neighbor (add_neighbor d "A") "C")
    "C" fun d => add_neighbor (add_neighbor d "A") "B"

/-- `LinkFailure` on A, duration 2 s = 4 ticks, injected at clock
tick 200 (one tick = 0.5 s). -/
def simC2fault : NetworkSimulator :=
  (inject_fault simC2seeded 200 "link_failure" "A" none [] (some 4)).2

/-- Fault-expiry scan at tick 201 (t = 0.5 s after injection: active). -/
def simC2mid : NetworkSimulator := process_faults_tick simC2fault 201

/-- Fault-expiry scan at tick 205 (t = 2.5 s: past the 2 s deadline). -/
def simC2after : NetworkSimulator := process_faults_tick simC2mid 205

def topoC3 : NetworkTopology :=
  { devices := [("A", plainConfig "A" [plainIntf "eth0" 3232235777 4294967040])]
    links := [], graphNodes := ["A"], graphEdges := [] }

def simC3 : NetworkSimulator := NetworkSimulator.init topoC3

def topoC4 : NetworkTopology :=
  { devices := [("A", plainConfig "A" [plainIntf "eth0" 3232235777 4294967040])]
    links := [], graphNodes := ["A"], graphEdges := [] }

def simC4 : NetworkSimulator := NetworkSimulator.init topoC4

/-- A fault with duration 0 injected at clock 10. -/
def simC4dur0 : NetworkSimulator := (inject_fault simC4 10 "high_cpu" "A" none [] (some 0)).2

/-- A fault with duration 2 injected at clock 10. -/
def simC4dur2 : NetworkSimulator := (inject_fault simC4 10 "high_cpu" "A" none [] (some 2)).2

def topoC5 : NetworkTopology :=
  { devices := [("A", plainConfig "A" [plainIntf "eth0" 3232235777 4294967040])]
    links := [], graphNodes := ["A"], graphEdges := [] }

def simC5 : NetworkSimulator := NetworkSimulator.init topoC5

def topoC8 : NetworkTopology :=
  { devices := [("A", plainConfig "A" [plainIntf "eth0" 3232235777 4294967040])]
    links := [], graphNodes := ["A"], graphEdges := [] }

def evC8a : SimulationEvent :=
  { timestamp := 1, event_type := "packet_sent", source_device := "A"
    target_device := none, description := "p1" }

def evC8b : SimulationEvent :=
  { timestamp := 2, event_type := "error_occurred", source_device := "A"
    target_device := none, description := "e1" }

def evC8c : SimulationEvent :=
  { timestamp := 3, event_type := "packet_sent", source_device := "A"
    target_device := none, description := "p2" }

def simC8 : NetworkSimulator :=
  { NetworkSimulator.init topoC8 with events := [evC8a, evC8b, evC8c] }

/-- C7 witness device: one interface `eth0`, 192.168.1.1/24. -/
def devC7 : NetworkDevice :=
  mk_network_device "R1" DeviceType.router [plainIntf "eth0" 3232235777 4294967040]

/-- C10 witness device: its single interface is `Down`, yet it still
answers ARP for 192.168.1.1. -/
def devC10 : NetworkDevice :=
  set_interface_state
    (mk_network_device "X" DeviceType.endpoint [plainIntf "eth0" 3232235777 4294967040])
    "eth0" InterfaceState.down

/-! ## Helper lemmas -/

theorem any_map_congr {α : Type} (g : α → α) (p : α → Bool) (h : ∀ a, p (g a) = p a)
    (l : List α) : (l.map g).any p = l.any p := by
  induction l with
  | nil => rfl
  | cons a t ih => simp [h a, ih]

theorem find?_isSome_map_congr {α : Type} (g : α → α) (p : α → Bool)
    (h : ∀ a, p (g a) = p a) :
    ∀ l : List α, ((l.map g).find? p).isSome = (l.find? p).isSome := by
  intro l
  induction l with
  | nil => rfl
  | cons a t ih =>
    rw [List.map_cons, List.find?_cons, List.find?_cons, h a]
    cases hpa : p a
    · exact ih
    · rfl

/-- Writing interface states twice under the same name composes to the
second write, pointwise over the interface list. -/
theorem map_set_state_twice (n : String) (st1 st2 : InterfaceState) (l : List Interface) :
    ((l.map fun i => if i.name == n then { i with state := st1 } else i).map fun i =>
        if i.name == n then { i with state := st2 } else i)
      = l.map fun i => if i.name == n then { i with state := st2 } else i := by
  rw [List.map_map]
  apply List.map_congr_left
  intro i _
  by_cases hi : i.name = n
  · simp [Function.comp, hi]
  · simp [Function.comp, hi]

/-- Setting the state of the same interface name twice keeps only the
second write. -/
theorem set_interface_state_overwrite (d : NetworkDevice) (n : String)
    (st1 st2 : InterfaceState) :
    set_interface_state (set_interface_state d n st1) n st2
      = set_interface_state d n st2 := by
  by_cases h : (d.interfaces.any fun i => i.name == n) = true
  · have hany2 : ((d.interfaces.map fun i =>
        if i.name == n then { i with state := st1 } else i).any
          (fun i => i.name == n)) = true := by
      rw [any_map_congr _ _ (fun a => by by_cases ha : a.name = n <;> simp [ha]) _]
      exact h
    unfold set_interface_state
    simp only [if_pos h, if_pos hany2]
    rw [map_set_state_twice]
  · have hinner : set_interface_state d n st1 = d := by
      unfold set_interface_state
      rw [if_neg h]
    rw [hinner]

/-- After mapping the state-write over a list that contains the name, the
first entry found under that name carries the written state. -/
theorem find?_set_state (n : String) (st : InterfaceState) :
    ∀ l : List Interface, l.any (fun i => i.name == n) = true →
      (((l.map fun i => if i.name == n then { i with state := st } else i).find?
          (fun i => i.name == n)).map Interface.state) = some st := by
  intro l
  induction l with
  | nil => intro h; simp at h
  | cons a t ih =>
    intro h
    rw [List.map_cons, List.find?_cons]
    by_cases ha : a.name = n
    · simp [ha]
    · have hbeq : (a.name == n) = false := beq_eq_false_iff_ne.mpr ha
      have ht : t.any (fun i => i.name == n) = true := by
        simpa [hbeq] using h
      simpa [hbeq] using ih ht

theorem singleton_subnet_of_iff (t ip p : Nat) :
    singleton_subnet_of t ip p = true ↔ t / 2 ^ (32 - p) = ip / 2 ^ (32 - p) := by
  have hmpos : 0 < 2 ^ (32 - p) := pow_pos (by norm_num) _
  unfold singleton_subnet_of networkAddr broadcastAddr
  rw [Bool.and_eq_true, decide_eq_true_eq, decide_eq_true_eq]
  set m := 2 ^ (32 - p) with hm
  constructor
  · rintro ⟨h1, h2⟩
    have hle : ip / m ≤ t / m := (Nat.le_div_iff_mul_le hmpos).mpr h1
    have hlt2 : t < (ip / m + 1) * m := by
      have hlt1 : ip / m * m + (m - 1) < ip / m * m + m :=
        Nat.add_lt_add_left (Nat.sub_lt hmpos Nat.one_pos) _
      calc t ≤ ip / m * m + (m - 1) := h2
        _ < ip / m * m + m := hlt1
        _ = (ip / m + 1) * m := by ring
    have hlt : t / m < ip / m + 1 := (Nat.div_lt_iff_lt_mul hmpos).mpr hlt2
    exact Nat.le_antisymm (Nat.lt_add_one_iff.mp hlt) hle
  · intro h
    refine ⟨?_, ?_⟩
    · calc ip / m * m = t / m * m := by rw [h]
        _ ≤ t := Nat.div_mul_le_self t m
    · have hmod : t % m < m := Nat.mod_lt _ hmpos
      calc t = t / m * m + t % m := (Nat.div_add_mod' t m).symm
        _ ≤ t / m * m + (m - 1) := Nat.add_le_add_left (Nat.le_sub_one_of_lt hmod) _
        _ = ip / m * m + (m - 1) := by rw [h]

theorem mask_reach_iff (t ip m : Nat) :
    mask_reach t ip m = true ↔
      ∃ p, maskPrefixLen m = some p ∧ t / 2 ^ (32 - p) = ip / 2 ^ (32 - p) := by
  unfold mask_reach
  cases hmp : maskPrefixLen m with
  | none => simp
  | some p =>
    rw [singleton_subnet_of_iff]
    constructor
    · exact fun h => ⟨p, rfl, h⟩
    · rintro ⟨q, hq, h⟩
      obtain rfl : p = q := Option.some.inj hq
      exact h

/-! ## Claim C6 -/

/-- C6: `canReach(ip)` is true iff some interface in state `Up` has a
(parsable) address/mask whose derived network contains the target's
singleton network — equivalently, target and interface address agree on
the network's prefix bits; `Down`/`AdminDown` interfaces never
contribute. -/
theorem c6_can_reach_iff (d : NetworkDevice) (tip : Nat) :
    can_reach_ip d tip = true ↔
      ∃ intf ∈ d.interfaces, intf.state = InterfaceState.up ∧
        ∃ p, maskPrefixLen intf.subnet_mask = some p ∧
          tip / 2 ^ (32 - p) = intf.ip_address / 2 ^ (32 - p) := by
  unfold can_reach_ip
  rw [List.any_eq_true]
  constructor
  · rintro ⟨i, hi, hcond⟩
    rw [Bool.and_eq_true, beq_iff_eq] at hcond
    obtain ⟨hst, hmr⟩ := hcond
    obtain ⟨p, hp, hq⟩ := (mask_reach_iff tip i.ip_address i.subnet_mask).mp hmr
    exact ⟨i, hi, hst, p, hp, hq⟩
  · rintro ⟨i, hi, hst, p, hp, hq⟩
    refine ⟨i, hi, ?_⟩
    rw [Bool.and_eq_true, beq_iff_eq]
    exact ⟨hst, (mask_reach_iff tip i.ip_address i.subnet_mask).mpr ⟨p, hp, hq⟩⟩

/-! ## Claim C7 -/

/-- C7: `setInterfaceState` with an unknown name changes nothing; with a
known name, `Down` then `Up` leaves that interface `Up`, and the result
is indistinguishable from a single `Up` write to every subsequent
`canReach` check. -/
theorem c7_set_interface_state_roundtrip (d : NetworkDevice) (n : String)
    (st : InterfaceState) (tip : Nat) :
    ((∀ i ∈ d.interfaces, i.name ≠ n) → set_interface_state d n st = d) ∧
    ((∃ i ∈ d.interfaces, i.name = n) →
      (((set_interface_state (set_interface_state d n InterfaceState.down) n
            InterfaceState.up).interfaces.find? (fun i => i.name == n)).map
          Interface.state = some InterfaceState.up) ∧
      can_reach_ip (set_interface_state (set_interface_state d n InterfaceState.down) n
          InterfaceState.up) tip
        = can_reach_ip (set_interface_state d n InterfaceState.up) tip) := by
  constructor
  · intro h
    unfold set_interface_state
    rw [if_neg]
    intro hc
    rw [List.any_eq_true] at hc
    obtain ⟨i, hi, hn⟩ := hc
    exact h i hi (by simpa using hn)
  · intro hex
    have hany : d.interfaces.any (fun i => i.name == n) = true := by
      rw [List.any_eq_true]
      obtain ⟨i, hi, hn⟩ := hex
      exact ⟨i, hi, by simp [hn]⟩
    rw [set_interface_state_overwrite]
    refine ⟨?_, rfl⟩
    unfold set_interface_state
    rw [if_pos hany]
    exact find?_set_state n InterfaceState.up d.interfaces hany

/-- C7 witness: on the concrete device `devC7` the round trip on `eth0`
ends `Up` and agrees with a direct `Up` write on `canReach`. -/
theorem c7_witness :
    (((set_interface_state (set_interface_state devC7 "eth0" InterfaceState.down) "eth0"
          InterfaceState.up).interfaces.find? (fun i => i.name == "eth0")).map
        Interface.state = some InterfaceState.up) ∧
    can_reach_ip (set_interface_state (set_interface_state devC7 "eth0" InterfaceState.down)
        "eth0" InterfaceState.up) 3232235788
      = can_reach_ip (set_interface_state devC7 "eth0" InterfaceState.up) 3232235788 :=
  (c7_set_interface_state_roundtrip devC7 "eth0" InterfaceState.up 3232235788).2
    ⟨{ name := "eth0", ip_address := 3232235777, subnet_mask := 4294967040
       bandwidth := 100, mtu := 1500, state := InterfaceState.up, vlan := none
       description := "" }, by decide, rfl⟩

/-! ## Claim C9 -/

/-- C9: processing any message bumps `packets_received` by exactly one
and never touches the error counter; an unrecognized kind is dropped
with no other state change. -/
theorem c9_process_message_counters (d : NetworkDevice) (msg : Message) :
    (process_message d msg).statistics.packets_received
        = d.statistics.packets_received + 1 ∧
    (process_message d msg).statistics.errors = d.statistics.errors ∧
    ∀ t, process_message d (Message.other t)
        = { d with statistics :=
            { d.statistics with
                packets_received := d.statistics.packets_received + 1 } } := by
  refine ⟨?_, ?_, fun t => rfl⟩ <;>
  · cases msg with
    | routing_update route =>
      simp only [process_message]
      unfold handle_routing_update
      split
      · cases route <;> rfl
      · rfl
    | arp_request a b => rfl
    | ospf_hello a b => rfl
    | ping a b c => rfl
    | other t => rfl

/-! ## Claim C10 -/

/-- C10: an ARP request whose target IP equals some interface address is
answered no matter what state any interface is in — the reply existence
is invariant under every `setInterfaceState` write. -/
theorem c10_arp_reply_ignores_state (d : NetworkDevice) (target_ip : Nat)
    (source_mac : String) :
    ((∃ i ∈ d.interfaces, i.ip_address = target_ip) →
      (handle_arp_request d target_ip source_mac).isSome = true) ∧
    ∀ n st, (handle_arp_request (set_interface_state d n st) target_ip source_mac).isSome
        = (handle_arp_request d target_ip source_mac).isSome := by
  constructor
  · rintro ⟨i, hi, hip⟩
    unfold handle_arp_request
    rw [Option.isSome_map']
    rw [List.find?_isSome]
    exact ⟨i, hi, by simp [hip]⟩
  · intro n st
    unfold handle_arp_request set_interface_state
    split
    · rw [Option.isSome_map', Option.isSome_map']
      exact find?_isSome_map_congr _ _
        (fun a => by by_cases ha : a.name == n <;> simp [ha]) _
    · rfl

/-- C10 witness: `devC10` — whose single interface is `Down` — still
synthesizes a reply to an ARP request for its own address. -/
theorem c10_witness : (handle_arp_request devC10 3232235777 "MAC_src").isSome = true :=
  (c10_arp_reply_ignores_state devC10 3232235777 "MAC_src").1
    ⟨{ name := "eth0", ip_address := 3232235777, subnet_mask := 4294967040
       bandwidth := 100, mtu := 1500, state := InterfaceState.down, vlan := none
       description := "" }, by decide, rfl⟩

/-! ## Simulator helper lemmas: nothing but the expiry scan edits the
active-fault list -/

theorem updateDevice_active (s : NetworkSimulator) (h : String)
    (g : NetworkDevice → NetworkDevice) :
    (updateDevice s h g).active_faults = s.active_faults := rfl

theorem record_event_active (s : NetworkSimulator) (now : Int) (a b : String)
    (c : Option String) (e : String) :
    (record_event s now a b c e).active_faults = s.active_faults := rfl

theorem foldl_preserves_active {α : Type} (step : NetworkSimulator → α → NetworkSimulator)
    (hstep : ∀ s a, (step s a).active_faults = s.active_faults) :
    ∀ (l : List α) (s : NetworkSimulator), (l.foldl step s).active_faults = s.active_faults := by
  intro l
  induction l with
  | nil => intro s; rfl
  | cons a t ih => intro s; rw [List.foldl_cons, ih, hstep]

theorem link_fail_step_active (tg : String) (s : NetworkSimulator) (nb : String) :
    (link_fail_step tg s nb).active_faults = s.active_faults := by
  unfold link_fail_step
  dsimp only
  split <;> rfl

theorem link_recover_step_active (tg : String) (s : NetworkSimulator) (nb : String) :
    (link_recover_step tg s nb).active_faults = s.active_faults := by
  unfold link_recover_step
  dsimp only
  split <;> rfl

theorem apply_fault_active (s : NetworkSimulator) (f : FaultInjection) :
    (apply_fault s f).active_faults = s.active_faults := by
  unfold apply_fault
  split
  · split <;> rfl
  · split
    · exact foldl_preserves_active _ (link_fail_step_active f.target_device) _ s
    · rfl

theorem remove_fault_active (s : NetworkSimulator) (f : FaultInjection) :
    (remove_fault s f).active_faults = s.active_faults := by
  unfold remove_fault
  split
  · split <;> rfl
  · split
    · exact foldl_preserves_active _ (link_recover_step_active f.target_device) _ s
    · rfl

theorem inject_fault_active (s : NetworkSimulator) (now : Int) (ft tgt : String)
    (ti : Option String) (ps : List (String × String)) (dur : Option Int)
    (h : containsDevice s tgt = true) :
    (inject_fault s now ft tgt ti ps dur).2.active_faults
      = s.active_faults ++ [mk_fault now ft tgt ti ps dur] := by
  unfold inject_fault
  rw [if_pos h]
  dsimp only
  rw [record_event_active, apply_fault_active]

theorem process_faults_tick_active (s : NetworkSimulator) (now : Int) :
    (process_faults_tick s now).active_faults
      = s.active_faults.filter fun f => !(fault_expired now f) := by
  unfold process_faults_tick
  dsimp only
  rw [foldl_preserves_active remove_fault remove_fault_active]

theorem mem_process_faults_tick (s : NetworkSimulator) (now : Int) (f : FaultInjection) :
    f ∈ (process_faults_tick s now).active_faults ↔
      f ∈ s.active_faults ∧ fault_expired now f = false := by
  rw [process_faults_tick_active, List.mem_filter, Bool.not_eq_true']

/-! ## Claim C5 -/

/-- C5: `inject_fault` targeting a hostname not in the device table
returns the not-found signal and leaves the entire simulator state —
fault lists, devices, events, everything — unchanged. -/
theorem c5_inject_unknown_noop (s : NetworkSimulator) (now : Int) (ft tgt : String)
    (ti : Option String) (ps : List (String × String)) (dur : Option Int)
    (h : containsDevice s tgt = false) :
    inject_fault s now ft tgt ti ps dur = (InjectResult.notFound, s) := by
  have hne : ¬(containsDevice s tgt = true) := by simp [h]
  unfold inject_fault
  rw [if_neg hne]

/-- C5 witness: injecting on the unknown device `ghost` of `simC5`
returns not-found with the state intact. -/
theorem c5_witness :
    inject_fault simC5 5 "interface_down" "ghost" none [] none
      = (InjectResult.notFound, simC5) :=
  c5_inject_unknown_noop simC5 5 "interface_down" "ghost" none [] none (by decide)

/-! ## Claim C3 -/

/-- C3 counterexample: a fault injected with the non-`None` duration `0`
gets **no** start time (`start_time = time.time() if duration else None`
is Python truthiness), refuting "any non-None duration, including 0, has
a start time set at injection". -/
theorem c3_counterexample :
    ((inject_fault simC3 7 "high_cpu" "A" none [] (some 0)).2.active_faults.map
        fun f => (f.duration, f.start_time))
      = [(some (0 : Int), (none : Option Int))] := by decide

/-- C3 (amended): a fault with `duration = None` has no start time and is
never removed by the expiry scan; a fault with a **nonzero** duration has
its start time set at injection; a fault with duration `0` has no start
time (and, its duration being falsy, is likewise never expired). -/
theorem c3_fault_time_invariant (s : NetworkSimulator) (now : Int) (ft tgt : String)
    (ti : Option String) (ps : List (String × String)) (dur : Option Int)
    (h : containsDevice s tgt = true) :
    mk_fault now ft tgt ti ps dur ∈ (inject_fault s now ft tgt ti ps dur).2.active_faults ∧
    (dur = none → (mk_fault now ft tgt ti ps dur).start_time = none ∧
      ∀ s2 now2, mk_fault now ft tgt ti ps dur ∈ s2.active_faults →
        mk_fault now ft tgt ti ps dur ∈ (process_faults_tick s2 now2).active_faults) ∧
    (∀ d, dur = some d → d ≠ 0 → (mk_fault now ft tgt ti ps dur).start_time = some now) ∧
    (dur = some 0 → (mk_fault now ft tgt ti ps dur).start_time = none) := by
  refine ⟨?_, ?_, ?_, ?_⟩
  · rw [inject_fault_active s now ft tgt ti ps dur h]
    simp
  · rintro rfl
    refine ⟨by simp [mk_fault, pyTruthyTime], ?_⟩
    intro s2 now2 hmem
    rw [mem_process_faults_tick]
    exact ⟨hmem, by simp [mk_fault, fault_expired, pyTruthyTime]⟩
  · rintro d rfl hd
    simp [mk_fault, pyTruthyTime, hd]
  · rintro rfl
    simp [mk_fault, pyTruthyTime]

/-- C3 witness: a nonzero duration (3) at clock 7 yields start time 7. -/
theorem c3_witness :
    (mk_fault 7 "high_cpu" "A" none [] (some 3)).start_time = some 7 :=
  (c3_fault_time_invariant simC3 7 "high_cpu" "A" none [] (some 3) (by decide)).2.2.1
    3 rfl (by norm_num)

/-! ## Claim C4 -/

/-- C4 counterexample: the fault of duration `D = 0` injected at clock 10
is still in the active list after an expiry scan at clock 1000 ≥ t0 + D:
a zero duration is falsy, so the expiry loop never removes it. -/
theorem c4_counterexample :
    mk_fault 10 "high_cpu" "A" none [] (some 0)
      ∈ (process_faults_tick simC4dur0 1000).active_faults := by decide

/-- C4 (amended): a fault injected at clock `t0 ≠ 0` with duration
`D ≠ 0` carries start time `t0`, enters the active list, and an expiry
scan at clock `now` keeps it exactly when `now - t0 < D` — so it is
active on `[t0, t0+D)` and is removed by the first scan past `t0+D`,
i.e. within one expiry tick.  (`t0 ≠ 0` reflects the truthiness test on
`fault.start_time`; real `time.time()` readings are always nonzero.) -/
theorem c4_fault_lifecycle (s : NetworkSimulator) (t0 D : Int) (ft tgt : String)
    (ti : Option String) (ps : List (String × String))
    (h : containsDevice s tgt = true) (hD : D ≠ 0) (ht0 : t0 ≠ 0) :
    (mk_fault t0 ft tgt ti ps (some D)).start_time = some t0 ∧
    mk_fault t0 ft tgt ti ps (some D)
        ∈ (inject_fault s t0 ft tgt ti ps (some D)).2.active_faults ∧
    ∀ s2 now, mk_fault t0 ft tgt ti ps (some D) ∈ s2.active_faults →
      (mk_fault t0 ft tgt ti ps (some D) ∈ (process_faults_tick s2 now).active_faults ↔
        now - t0 < D) := by
  have hexp : ∀ now, fault_expired now (mk_fault t0 ft tgt ti ps (some D))
      = decide (now - t0 ≥ D) := by
    intro now
    simp [mk_fault, fault_expired, pyTruthyTime, hD, ht0]
  refine ⟨by simp [mk_fault, pyTruthyTime, hD], ?_, ?_⟩
  · rw [inject_fault_active s t0 ft tgt ti ps (some D) h]
    simp
  · intro s2 now hmem
    rw [mem_process_faults_tick]
    constructor
    · rintro ⟨-, hfe⟩
      rw [hexp now] at hfe
      exact not_le.mp (of_decide_eq_false hfe)
    · intro hlt
      exact ⟨hmem, by rw [hexp now]; exact decide_eq_false (not_le.mpr hlt)⟩

/-- C4 witness: for the duration-2 fault injected at clock 10, the scan
at clock 11 keeps it iff 11 − 10 < 2 (it does). -/
theorem c4_witness :
    mk_fault 10 "high_cpu" "A" none [] (some 2)
        ∈ (process_faults_tick simC4dur2 11).active_faults ↔ (11 : Int) - 10 < 2 :=
  (c4_fault_lifecycle simC4 10 2 "high_cpu" "A" none [] (by decide) (by norm_num)
    (by norm_num)).2.2 simC4dur2 11 (by decide)

/-! ## Claim C1 -/

/-- C1 (code bug): on the two-device linked topology `topoC1`, the status
taken right after `start_simulation` does list every configured device,
but reports **zero** neighbors for each, while the input topology's
adjacency gives each device one neighbor: `_initialize_devices` reads
neighbors from the simulator's own freshly constructed
`TopologyGenerator`, whose `topology` is still `None`. -/
theorem c1_status_missing_neighbors :
    ((get_network_status simC1).devices.map Prod.fst = ["A", "B"]) ∧
    (((get_network_status simC1).devices.map fun kv => kv.2.neighbors.length) = [0, 0]) ∧
    ((graphNeighbors topoC1.graphEdges "A").length = 1) ∧
    (get_device_neighbors simC1.topology_generator "A" = []) := by decide

/-! ## Claim C2 -/

/-- C2 (code bug): on the triangle `topoC2` — with the claimed adjacency
seeded through `add_neighbor`, since `NetworkSimulator.init` itself seeds
none — injecting `link_failure` on A for 2 s at clock 100 does empty A's
neighbor set and drop A from B and C (scan at 100.5), and the fault does
expire by the scan at 102.5; but A's neighbors are **not** restored to
{B, C}: `_remove_fault` reads the restoration set from the simulator's
own `TopologyGenerator`, whose `topology` is `None`, so it re-adds
nothing, although the input adjacency of A is `["B", "C"]`. -/
theorem c2_linkfailure_not_restored :
    ((lookupDevice (NetworkSimulator.init topoC2) "A").map NetworkDevice.neighbors
        = some []) ∧
    ((lookupDevice simC2mid "A").map NetworkDevice.neighbors = some []) ∧
    ((lookupDevice simC2mid "B").map NetworkDevice.neighbors = some ["C"]) ∧
    ((lookupDevice simC2mid "C").map NetworkDevice.neighbors = some ["B"]) ∧
    (simC2after.active_faults = []) ∧
    ((lookupDevice simC2after "A").map NetworkDevice.neighbors = some []) ∧
    (graphNeighbors topoC2.graphEdges "A" = ["B", "C"]) := by decide

/-! ## Claim C8 -/

theorem pySliceFrom_neg {α : Type} (l : List α) (k : Int) (hk : 0 < k) :
    pySliceFrom (-k) l = l.drop (l.length - k.toNat) := by
  unfold pySliceFrom
  rw [if_pos (by omega : (-k : Int) < 0)]
  congr 1
  omega

/-- C8 counterexample: with two matching events recorded and `limit = 0`
supplied, the query returns both — not the most recent zero — because
`if limit:` treats a zero limit like no limit at all. -/
theorem c8_counterexample :
    (get_simulation_events simC8 (some "packet_sent") (some 0)).length = 2 := by decide

/-- C8 (amended): for a nonempty kind filter, the query returns exactly
the matching events in insertion order; a **positive** limit truncates to
the most recent `limit` of them, while `limit = 0` behaves like no limit
and returns them all. -/
theorem c8_events_query (s : NetworkSimulator) (k : String) (l : Int)
    (hk : k ≠ "") (hl : 0 < l) :
    get_simulation_events s (some k) (some l)
        = (s.events.filter fun e => e.event_type == k).drop
            ((s.events.filter fun e => e.event_type == k).length - l.toNat) ∧
    get_simulation_events s (some k) (some 0)
        = s.events.filter (fun e => e.event_type == k) ∧
    get_simulation_events s (some k) none
        = s.events.filter (fun e => e.event_type == k) := by
  have hfe : filteredEvents s (some k) = s.events.filter fun e => e.event_type == k := by
    show (if k ≠ "" then s.events.filter (fun e => e.event_type == k) else s.events) = _
    rw [if_pos hk]
  refine ⟨?_, ?_, ?_⟩
  · show (if l ≠ 0 then pySliceFrom (-l) (filteredEvents s (some k))
        else filteredEvents s (some k)) = _
    rw [if_pos hl.ne', hfe, pySliceFrom_neg _ l hl]
  · show (if (0 : Int) ≠ 0 then pySliceFrom (-0) (filteredEvents s (some k))
        else filteredEvents s (some k)) = _
    rw [if_neg (by simp), hfe]
  · show filteredEvents s (some k) = _
    exact hfe

/-- C8 witness: `limit = 1` on `simC8` keeps exactly the most recent
matching event. -/
theorem c8_witness :
    get_simulation_events simC8 (some "packet_sent") (some 1)
      = (simC8.events.filter fun e => e.event_type == "packet_sent").drop
          ((simC8.events.filter fun e => e.event_type == "packet_sent").length
            - (1 : Int).toNat) :=
  (c8_events_query simC8 "packet_sent" 1 (by decide) (by norm_num)).1

end NetSim
